import Mathlib

/-!
Verification of the ambient now-playing control loop in `src/hello.py`.

The embedding translates the core capture / buffering / recognition /
source-arbitration logic of `MusicIdentifier` into pure Lean functions:

* `get_sonos_track_info` embeds `MusicIdentifier.get_sonos_track_info`
  (hello.py lines 1403-1456);
* `pushChunk`, `isFull`, `drainClip` embed the in-loop audio buffer
  (hello.py lines 899-903 and 964-1000);
* `update_if_new` embeds the change-detection update of `last_identified`
  (hello.py lines 928-934 and 1012-1017, identical in both places);
* `tick` embeds one iteration of the `while True:` body of
  `MusicIdentifier.run` (hello.py lines 905-1036), for iterations inside
  operating hours; external effects (device queries, stream reads, the
  recognition call) are supplied as inputs of the tick.

Times and durations are rationals; audio samples are modelled as values on
which the `np.isnan` / `np.isinf` tests of line 968 are meaningful.
-/

namespace AL

/-- Canonical song record: the dicts stored in `self.last_identified`.
Records built from Shazam results carry no artwork field (hello.py 1007-1010);
records built from Sonos carry `images.coverart` (hello.py 1444-1451). -/
structure SongRecord where
  title : String
  artist : String
  art_url : Option String
deriving Repr, DecidableEq

/-- Audio sample as seen by the chunk-validity test of hello.py line 968:
a finite value, or a NaN, or an infinity. -/
inductive Sample where
  | finite (v : Int)
  | nan
  | inf
deriving Repr, DecidableEq

/-- Test mirrored by `np.isnan` on one sample. -/
def Sample.isNaN : Sample → Bool
  | .nan => true
  | _ => false

/-- Value of a sample; buffered chunks have passed the validity filter, so
only `finite` values ever reach a drained clip. -/
def Sample.toInt : Sample → Int
  | .finite v => v
  | _ => 0

/-- Test mirrored by `np.isinf` on one sample. -/
def sampleIsInf : Sample → Bool
  | .inf => true
  | _ => false

/-- Result of one external query (a call into the soco / shazam bindings):
either a value or a raised exception. -/
inductive Query (α : Type) where
  | ok (val : α)
  | err
deriving Repr, DecidableEq

/-- Track dict returned by `get_current_track_info` (hello.py 1441):
`none` fields model missing keys, and an empty title models a falsy title. -/
structure TrackInfo where
  title : Option String
  artist : Option String
  album_art : Option String
deriving Repr, DecidableEq

/-- External answers available to one `get_sonos_track_info` call:
the transport-state query (lowercased `current_transport_state`) and the
track-info query (`ok none` models a falsy/empty dict). -/
structure SonosEnv where
  transport : Query String
  track : Query (Option TrackInfo)
deriving Repr, DecidableEq

/-- Parsed Shazam result: `result['track']` with optional `title` and
`subtitle` keys (hello.py 1006-1010). -/
structure ShazamTrack where
  title : Option String
  subtitle : Option String
deriving Repr, DecidableEq

/-- Outcome of `self.stream.read` (hello.py 956-962 and 1026-1029). -/
inductive ReadResult where
  | ok (chunk : List Sample)
  | empty
  | ioError
deriving Repr, DecidableEq

/-- Observable events of one loop iteration, used to state trace
properties (poll issued, store cleared, warning logged, and so on). -/
inductive Event where
  | sonosQueried
  | sonosError
  | storeCleared
  | streamStopped
  | streamStarted
  | startError
  | readError
  | readEmpty
  | readChunk
  | invalidChunkWarning
  | pushed
  | submitRecognition
  | recognitionComplete
  | recognitionError
  | storeUpdated
deriving Repr, DecidableEq

/-- In-loop audio buffer: the `buffer` list and `buffer_duration` locals of
`MusicIdentifier.run` (hello.py 899-901). -/
structure BufState where
  chunks : List (List Sample)
  duration : ℚ
deriving Repr, DecidableEq

/-- Program state threaded through loop iterations: the Sonos-tracking
attributes (hello.py 42-43, 157), the capture-loop locals (899-903) and the
song-tracking attributes (137-138). `sonos_speaker_present` models
`self.sonos_speaker is not None`. -/
structure LoopState where
  sonos_speaker_present : Bool
  sonos_is_playing : Bool
  last_sonos_check : ℚ
  audio_stream_active : Bool
  buffer : BufState
  last_identified : Option SongRecord
  last_song_time : Option ℚ
deriving Repr, DecidableEq

/-- Chunk size `self.CHUNK` (hello.py 65). -/
def CHUNK : ℚ := 4096

/-- Normal poll interval `self.sonos_check_interval` (hello.py 44). -/
def sonos_check_interval : ℚ := 1

/-- Paused poll interval `self.sonos_check_interval_paused` (hello.py 45). -/
def sonos_check_interval_paused : ℚ := 5

/-- Target clip duration `target_duration` (hello.py 902). -/
def target_duration : ℚ := 3

/-- Initial loop state: `sonos_is_playing = False`, `last_sonos_check = 0`
(hello.py 42-43), empty buffer, inactive stream (899-903), no identified
song (137-138). -/
def initState (speaker : Bool) : LoopState :=
  { sonos_speaker_present := speaker
    sonos_is_playing := false
    last_sonos_check := 0
    audio_stream_active := false
    buffer := { chunks := [], duration := 0 }
    last_identified := none
    last_song_time := none }

/-- Embedding of `MusicIdentifier.get_sonos_track_info` (hello.py
1403-1456). Returns the updated state, the value returned to the caller,
and the events of the call (`sonosQueried` marks an actual device query). -/
def get_sonos_track_info (s : LoopState) (now : ℚ) (env : SonosEnv) :
    LoopState × Option SongRecord × List Event :=
  if !s.sonos_speaker_present then (s, none, [])
  else if now - s.last_sonos_check <
      (if s.sonos_is_playing then sonos_check_interval
       else sonos_check_interval_paused) then
    if !s.sonos_is_playing then (s, none, [])
    else (s, s.last_identified, [])
  else
    let s1 := { s with last_sonos_check := now }
    match env.transport with
    | .err => ({ s1 with sonos_is_playing := false }, none,
               [.sonosQueried, .sonosError])
    | .ok st =>
      let wasPlaying := s1.sonos_is_playing
      let nowPlaying := st == "playing"
      let s2 := { s1 with sonos_is_playing := nowPlaying }
      if wasPlaying != nowPlaying && !nowPlaying then
        ({ s2 with last_identified := none }, none,
         [.sonosQueried, .storeCleared])
      else if nowPlaying then
        match env.track with
        | .err => ({ s2 with sonos_is_playing := false }, none,
                   [.sonosQueried, .sonosError])
        | .ok none => (s2, none, [.sonosQueried])
        | .ok (some ti) =>
          match ti.title with
          | none => (s2, none, [.sonosQueried])
          | some t =>
            if t = "" then (s2, none, [.sonosQueried])
            else
              (s2, some { title := t,
                          artist := ti.artist.getD "Unknown Artist",
                          art_url := ti.album_art },
               [.sonosQueried])
      else (s2, none, [.sonosQueried])

/-- Embedding of the chunk validity test and push (hello.py 964-973):
an invalid chunk is dropped (`false`), a valid one is appended and the
duration advanced by `self.CHUNK / self.RATE`. -/
def pushChunk (rate : ℚ) (b : BufState) (c : List Sample) : BufState × Bool :=
  if c.any Sample.isNaN || c.any sampleIsInf then (b, false)
  else ({ chunks := b.chunks ++ [c], duration := b.duration + CHUNK / rate },
        true)

/-- Embedding of the fullness test `buffer_duration >= target_duration`
(hello.py 979). -/
def isFull (b : BufState) : Bool := target_duration ≤ b.duration

/-- Embedding of clip construction and buffer reset (hello.py 982 and
998-1000): concatenate the buffered chunks and empty the buffer. -/
def drainClip (b : BufState) : List Int × BufState :=
  ((b.chunks.flatten).map Sample.toInt, { chunks := [], duration := 0 })

/-- Embedding of the maximum absolute amplitude
`np.max(np.abs(audio_array))` of hello.py 983. -/
def maxAbsSample (xs : List Int) : ℕ :=
  xs.foldl (fun m x => max m x.natAbs) 0

/-- Embedding of the peak normalization
`np.int16(audio_array / np.max(np.abs(audio_array)) * 32767)` of hello.py
line 983: `none` marks the division-by-zero branch reached when the peak
amplitude is zero; otherwise each sample is scaled to full range
(exact rational scaling, truncated toward zero as the int16 cast does). -/
def normalizeClip (xs : List Int) : Option (List Int) :=
  let m : ℤ := maxAbsSample xs
  if m = 0 then none
  else some (xs.map (fun x => Int.tdiv (x * 32767) m))

/-- Embedding of the change-detection update of `last_identified` and
`last_song_time` (hello.py 928-934, identical at 1012-1017): a candidate
whose `(title, artist)` differs from the stored record (or an empty store)
replaces the record, stamps the time and returns `true`; otherwise the
state is unchanged and `false` signals that no side effects run. -/
def update_if_new (s : LoopState) (cand : SongRecord) (now : ℚ) :
    LoopState × Bool :=
  match s.last_identified with
  | none =>
    ({ s with last_identified := some cand, last_song_time := some now }, true)
  | some cur =>
    if cand.title ≠ cur.title ∨ cand.artist ≠ cur.artist then
      ({ s with last_identified := some cand, last_song_time := some now },
       true)
    else (s, false)

/-- External inputs of one loop iteration: the Sonos query answers, whether
`self.stream.start_stream()` raises (hello.py 946-953), the stream read
outcome, and the recognition outcome (`ok none` models a result without a
`track` key, `err` an exception; hello.py 1002-1024). -/
structure TickEnv where
  sonos : SonosEnv
  startFails : Bool
  read : ReadResult
  recog : Query (Option ShazamTrack)
deriving Repr, DecidableEq

/-- Embedding of the Sonos branch of the loop body (hello.py 919-940):
stop the stream and clear the buffer if capture was active, then run
change detection on the reported track. -/
def sonosBranch (s : LoopState) (rec : SongRecord) (now : ℚ) :
    LoopState × List Event :=
  let (s1, evs) :=
    if s.audio_stream_active then
      ({ s with audio_stream_active := false,
                buffer := { chunks := [], duration := 0 } },
       [Event.streamStopped])
    else (s, [])
  let (s2, updated) := update_if_new s1 rec now
  (s2, evs ++ (if updated then [Event.storeUpdated] else []))

/-- Embedding of the capture branch of the loop body (hello.py 943-1029):
start the stream if needed, read a chunk, validate and push it, and once
the buffer is full drain it, submit the clip and consume the recognition
result. The third component is the clip submitted this iteration, if any. -/
def captureStep (rate : ℚ) (s : LoopState) (now : ℚ) (env : TickEnv) :
    LoopState × List Event × Option (List Int) :=
  if !s.audio_stream_active && env.startFails then
    (s, [Event.startError], none)
  else
    let (s1, evs) :=
      if !s.audio_stream_active then
        ({ s with audio_stream_active := true }, [Event.streamStarted])
      else (s, [])
    match env.read with
    | .ioError => (s1, evs ++ [Event.readError], none)
    | .empty => (s1, evs ++ [Event.readEmpty], none)
    | .ok chunk =>
      let evs := evs ++ [Event.readChunk]
      let (b, okPush) := pushChunk rate s1.buffer chunk
      if !okPush then (s1, evs ++ [Event.invalidChunkWarning], none)
      else
        let s2 := { s1 with buffer := b }
        let evs := evs ++ [Event.pushed]
        if isFull s2.buffer then
          let (clip, b2) := drainClip s2.buffer
          let s3 := { s2 with buffer := b2 }
          let evs := evs ++ [Event.submitRecognition]
          match env.recog with
          | .err =>
            (s3, evs ++ [Event.recognitionComplete, Event.recognitionError],
             some clip)
          | .ok none => (s3, evs ++ [Event.recognitionComplete], some clip)
          | .ok (some tr) =>
            let cand : SongRecord :=
              { title := tr.title.getD "Unknown Title",
                artist := tr.subtitle.getD "Unknown Artist",
                art_url := none }
            let (s4, updated) := update_if_new s3 cand now
            (s4, evs ++ [Event.recognitionComplete] ++
                 (if updated then [Event.storeUpdated] else []),
             some clip)
        else (s2, evs, none)

/-- One iteration of the `while True:` body of `MusicIdentifier.run`
(hello.py 905-1036), for an iteration inside operating hours: query the
arbiter, then take the Sonos branch or the capture branch. -/
def tick (rate : ℚ) (s : LoopState) (now : ℚ) (env : TickEnv) :
    LoopState × List Event × Option (List Int) :=
  let (s1, sonosTrack, evs) := get_sonos_track_info s now env.sonos
  match sonosTrack with
  | some rec =>
    let (s2, evs2) := sonosBranch s1 rec now
    (s2, evs ++ evs2, none)
  | none =>
    let (s2, evs2, clip) := captureStep rate s1 now env
    (s2, evs ++ evs2, clip)

/-- A run of the loop: iterate `tick` over a list of `(now, env)` inputs,
concatenating events and collecting submitted clips. -/
def runTicks (rate : ℚ) :
    LoopState → List (ℚ × TickEnv) → LoopState × List Event × List (List Int)
  | s, [] => (s, [], [])
  | s, (now, env) :: rest =>
    let (s1, evs, clip) := tick rate s now env
    let (sf, evsRest, clips) := runTicks rate s1 rest
    (sf, evs ++ evsRest, (match clip with | some c => [c] | none => []) ++ clips)

/-- Validity of one chunk as tested at hello.py line 968. -/
def validChunk (c : List Sample) : Bool :=
  !(c.any Sample.isNaN || c.any sampleIsInf)

/-- Buffer reached by pushing a sequence of chunks into an empty buffer. -/
def pushAll (rate : ℚ) (cs : List (List Sample)) : BufState :=
  cs.foldl (fun b c => (pushChunk rate b c).1) { chunks := [], duration := 0 }

/-- Retryable HTTP statuses of the recognition client: the `statuses` set
of hello.py line 108. -/
def retry_statuses : List ℕ := [500, 502, 503, 504, 429]

/-- Attempt bound of the recognition client: `attempts=12`, hello.py 106. -/
def retry_attempts : ℕ := 12

/-- Backoff cap of the recognition client: `max_timeout=204.8`,
hello.py 107. -/
def retry_max_timeout : ℚ := 1024 / 5

/-- One response of the external recognition service to one attempt. -/
inductive RecogResponse where
  | success (rec : SongRecord)
  | httpStatus (code : ℕ)
deriving Repr, DecidableEq

/-- Modelled from the spec: the delay before the i-th retry of the
recognition call. The retry executor itself (`aiohttp_retry.ExponentialRetry`)
is third-party library code not in this repository; `src/hello.py` only
configures it (lines 102-111). Per the spec, the backoff is exponential
(doubling from a starting timeout) and bounded by the configured cap. -/
def backoff_delay (start : ℚ) (i : ℕ) : ℚ :=
  min (start * 2 ^ i) retry_max_timeout

/-- Modelled from the spec: the bounded-retry loop around the outbound
recognition call. The executor (`aiohttp_retry`) is library code not in
this repository; only its configuration is (hello.py 102-111: 12 attempts,
retry on statuses 500, 502, 503, 504, 429). Per the spec, each attempt
consumes one service response; a retryable status with attempts remaining
waits the exponential backoff delay and retries; a success yields the
record; exhausting the attempts yields `none` — a logged failure, not an
exception. Returns the result, the number of attempts consumed, and the
backoff delays waited. -/
def run_retry (start : ℚ) :
    ℕ → ℕ → List RecogResponse → Option SongRecord × ℕ × List ℚ
  | _, _, [] => (none, 0, [])
  | 0, _, _ => (none, 0, [])
  | fuel + 1, i, r :: rs =>
    match r with
    | .success rec => (some rec, 1, [])
    | .httpStatus c =>
      if c ∈ retry_statuses ∧ fuel ≠ 0 then
        let (res, k, ds) := run_retry start fuel (i + 1) rs
        (res, k + 1, backoff_delay start i :: ds)
      else (none, 1, [])

/-- Scan of an event trace checking that no chunk read happens while a
recognition submission is in flight: the flag records whether a
`submitRecognition` has been seen without its `recognitionComplete` yet. -/
def noReadWhileInFlight : Bool → List Event → Bool
  | _, [] => true
  | true, Event.readChunk :: _ => false
  | true, Event.recognitionComplete :: rest => noReadWhileInFlight false rest
  | true, _ :: rest => noReadWhileInFlight true rest
  | false, Event.submitRecognition :: rest => noReadWhileInFlight true rest
  | false, _ :: rest => noReadWhileInFlight false rest

lemma pushChunk_valid (rate : ℚ) (b : BufState) (c : List Sample)
    (hc : validChunk c = true) :
    pushChunk rate b c =
      ({ chunks := b.chunks ++ [c], duration := b.duration + CHUNK / rate },
       true) := by
  unfold validChunk at hc
  unfold pushChunk
  simp only [Bool.not_eq_true'] at hc
  simp [hc]

lemma pushAll_from (rate : ℚ) (cs : List (List Sample)) (b : BufState)
    (hv : ∀ c ∈ cs, validChunk c = true) :
    cs.foldl (fun b c => (pushChunk rate b c).1) b =
      { chunks := b.chunks ++ cs,
        duration := b.duration + cs.length * (CHUNK / rate) } := by
  induction cs generalizing b with
  | nil => simp
  | cons c cs ih =>
    have hc : validChunk c = true := hv c (by simp)
    have hcs : ∀ x ∈ cs, validChunk x = true := fun x hx => hv x (by simp [hx])
    simp only [List.foldl_cons, pushChunk_valid rate b c hc]
    rw [ih _ hcs]
    congr 1
    · simp
    · simp only [List.length_cons]
      push_cast
      ring

lemma pushAll_spec (rate : ℚ) (cs : List (List Sample))
    (hv : ∀ c ∈ cs, validChunk c = true) :
    pushAll rate cs =
      { chunks := cs, duration := cs.length * (CHUNK / rate) } := by
  unfold pushAll
  rw [pushAll_from rate cs _ hv]
  simp

/-- C3: for every sequence of pushed valid chunks of the capture size, the
accumulated duration is the sum over chunks of chunk length over sample
rate; the buffer is full exactly when that duration has reached the 3.0 s
target — so, along the sequence, full first on the chunk that crosses the
threshold and not before — and draining returns the concatenated clip and
resets the buffer to empty with zero accumulated duration. -/
theorem audio_buffer_fill_drain (rate : ℚ) (cs : List (List Sample))
    (hv : ∀ c ∈ cs, validChunk c = true)
    (hlen : ∀ c ∈ cs, c.length = 4096) :
    (pushAll rate cs).duration
        = ((cs.map (fun c => (c.length : ℚ) / rate)).sum) ∧
    (∀ k, isFull (pushAll rate (cs.take k)) = true ↔
        target_duration ≤ ((min k cs.length : ℕ) : ℚ) * (CHUNK / rate)) ∧
    (drainClip (pushAll rate cs)).1 = (cs.flatten).map Sample.toInt ∧
    (drainClip (pushAll rate cs)).2 = { chunks := [], duration := 0 } := by
  have hmap : cs.map (fun c => (c.length : ℚ) / rate)
      = cs.map (fun _ => CHUNK / rate) := by
    apply List.map_congr_left
    intro c hc
    rw [hlen c hc]
    norm_num [CHUNK]
  refine ⟨?_, ?_, ?_, ?_⟩
  · rw [pushAll_spec rate cs hv, hmap]
    simp [List.map_const', List.sum_replicate, nsmul_eq_mul]
  · intro k
    have hvk : ∀ c ∈ cs.take k, validChunk c = true :=
      fun c hc => hv c (List.mem_of_mem_take hc)
    rw [pushAll_spec rate (cs.take k) hvk]
    unfold isFull
    simp [List.length_take, decide_eq_true_eq]
  · rw [pushAll_spec rate cs hv]
    simp [drainClip]
  · rw [pushAll_spec rate cs hv]
    simp [drainClip]

lemma any_replicate_false {α : Type} (n : ℕ) (x : α) (p : α → Bool)
    (h : p x = false) : (List.replicate n x).any p = false := by
  induction n with
  | zero => rfl
  | succ n ih => simp [List.replicate_succ, h, ih]

lemma validChunk_replicate_finite (n : ℕ) (v : Int) :
    validChunk (List.replicate n (Sample.finite v)) = true := by
  unfold validChunk
  rw [any_replicate_false n (Sample.finite v) Sample.isNaN rfl,
    any_replicate_false n (Sample.finite v) sampleIsInf rfl]
  rfl

/-- Witness for C3: at 16000 Hz, twelve 4096-sample chunks (3.072 s) fill
the buffer and eleven (2.816 s) do not. -/
theorem audio_buffer_fill_drain_witness :
    isFull (pushAll 16000
      (List.replicate 12 (List.replicate 4096 (Sample.finite 0)))) = true ∧
    isFull (pushAll 16000
      (List.replicate 11 (List.replicate 4096 (Sample.finite 0)))) = false := by
  have hvc : validChunk (List.replicate 4096 (Sample.finite 0)) = true :=
    validChunk_replicate_finite 4096 0
  have hv : ∀ (n : ℕ) (c : List Sample),
      c ∈ List.replicate n (List.replicate 4096 (Sample.finite 0)) →
      validChunk c = true := by
    intro n c hc
    rw [List.eq_of_mem_replicate hc]
    exact hvc
  have hlen : ∀ (n : ℕ) (c : List Sample),
      c ∈ List.replicate n (List.replicate 4096 (Sample.finite 0)) →
      c.length = 4096 := by
    intro n c hc
    rw [List.eq_of_mem_replicate hc]
    exact List.length_replicate 4096 (Sample.finite 0)
  have h12 := (audio_buffer_fill_drain 16000
      (List.replicate 12 (List.replicate 4096 (Sample.finite 0)))
      (hv 12) (hlen 12)).2.1 12
  have h11 := (audio_buffer_fill_drain 16000
      (List.replicate 11 (List.replicate 4096 (Sample.finite 0)))
      (hv 11) (hlen 11)).2.1 11
  simp only [List.take_replicate, List.length_replicate, min_self] at h12 h11
  constructor
  · exact h12.mpr (by norm_num [target_duration, CHUNK])
  · cases hb : isFull (pushAll 16000
        (List.replicate 11 (List.replicate 4096 (Sample.finite 0)))) with
    | false => rfl
    | true =>
      have := h11.mp hb
      norm_num [target_duration, CHUNK] at this

lemma update_if_new_noop (s : LoopState) (cur cand : SongRecord) (now : ℚ)
    (hcur : s.last_identified = some cur)
    (ht : cand.title = cur.title) (ha : cand.artist = cur.artist) :
    update_if_new s cand now = (s, false) := by
  unfold update_if_new
  rw [hcur]
  simp [ht, ha]

/-- C4: the store update is idempotent under repeated identical
`(title, artist)` submissions. The first candidate of a run (store empty,
or a different `(title, artist)` stored) replaces the record, stamps the
identification time and returns `true` (the signal that side effects run);
every later candidate of the run — even one differing in artwork — leaves
the record and the timestamp unchanged and returns `false`. -/
theorem store_update_idempotent (s : LoopState) (cand : SongRecord) (now : ℚ)
    (hfirst : s.last_identified = none ∨
      ∀ cur, s.last_identified = some cur →
        cand.title ≠ cur.title ∨ cand.artist ≠ cur.artist) :
    update_if_new s cand now =
      ({ s with last_identified := some cand, last_song_time := some now },
       true) ∧
    (∀ (cand' : SongRecord) (now' : ℚ),
      cand'.title = cand.title → cand'.artist = cand.artist →
      update_if_new (update_if_new s cand now).1 cand' now' =
        ((update_if_new s cand now).1, false)) ∧
    (∀ (run : List (SongRecord × ℚ)),
      (∀ p ∈ run, p.1.title = cand.title ∧ p.1.artist = cand.artist) →
      run.foldl (fun st p => (update_if_new st p.1 p.2).1)
          (update_if_new s cand now).1 = (update_if_new s cand now).1) := by
  have hfirstEq : update_if_new s cand now =
      ({ s with last_identified := some cand, last_song_time := some now },
       true) := by
    unfold update_if_new
    rcases hfirst with hnone | hdiff
    · rw [hnone]
    · cases hli : s.last_identified with
      | none => rfl
      | some cur => simp [hdiff cur hli]
  refine ⟨hfirstEq, ?_, ?_⟩
  · intro cand' now' ht ha
    rw [hfirstEq]
    exact update_if_new_noop _ cand cand' now' (by simp) ht ha
  · intro run hrun
    rw [hfirstEq]
    induction run with
    | nil => rfl
    | cons p run ih =>
      have hp := hrun p (by simp)
      have hrest : ∀ q ∈ run, q.1.title = cand.title ∧ q.1.artist = cand.artist :=
        fun q hq => hrun q (by simp [hq])
      simp only [List.foldl_cons]
      rw [update_if_new_noop _ cand p.1 p.2 (by simp) hp.1 hp.2]
      exact ih hrest

/-- Witness for C4: storing "A" / "B" into an empty store returns `true`;
resubmitting the same pair with different artwork returns `false` and
changes nothing, and a run of three further duplicates is absorbed. -/
theorem store_update_idempotent_witness :
    update_if_new (initState true)
        { title := "A", artist := "B", art_url := none } 7 =
      ({ initState true with
          last_identified := some { title := "A", artist := "B", art_url := none },
          last_song_time := some 7 }, true) ∧
    (update_if_new (update_if_new (initState true)
        { title := "A", artist := "B", art_url := none } 7).1
        { title := "A", artist := "B", art_url := some "http" } 9 =
      ((update_if_new (initState true)
        { title := "A", artist := "B", art_url := none } 7).1, false)) := by
  have h := store_update_idempotent (initState true)
      { title := "A", artist := "B", art_url := none } 7 (Or.inl rfl)
  exact ⟨h.1, h.2.1 { title := "A", artist := "B", art_url := some "http" } 9
    rfl rfl⟩

lemma gs_preserves_capture (s : LoopState) (now : ℚ) (env : SonosEnv) :
    (get_sonos_track_info s now env).1.audio_stream_active
        = s.audio_stream_active ∧
    (get_sonos_track_info s now env).1.buffer = s.buffer ∧
    (get_sonos_track_info s now env).1.sonos_speaker_present
        = s.sonos_speaker_present := by
  simp only [get_sonos_track_info]
  repeat' split
  all_goals simp

lemma gs_cached (s : LoopState) (now : ℚ) (env : SonosEnv)
    (hsp : s.sonos_speaker_present = true)
    (hlt : now - s.last_sonos_check <
      (if s.sonos_is_playing then sonos_check_interval
       else sonos_check_interval_paused)) :
    get_sonos_track_info s now env =
      (s, (if s.sonos_is_playing then s.last_identified else none), []) := by
  unfold get_sonos_track_info
  rw [hsp]
  simp only [Bool.not_true, Bool.false_eq_true, if_false, if_pos hlt]
  cases hp : s.sonos_is_playing <;> simp

lemma gs_poll_queried (s : LoopState) (now : ℚ) (env : SonosEnv)
    (hsp : s.sonos_speaker_present = true)
    (hge : ¬ now - s.last_sonos_check <
      (if s.sonos_is_playing then sonos_check_interval
       else sonos_check_interval_paused)) :
    Event.sonosQueried ∈ (get_sonos_track_info s now env).2.2 ∧
    (get_sonos_track_info s now env).1.last_sonos_check = now := by
  simp only [get_sonos_track_info, hsp, hge]
  repeat' split
  all_goals simp_all

/-- C5: the arbiter never issues a device poll more frequently than the
state-dependent minimum interval. A device query happens exactly when the
elapsed time since the last check has reached the interval belonging to
the state current at the check (1 s while playing, 5 s while idle); a
query stamps the check time; within the interval the call leaves the
state untouched and answers from cache (the last identified record while
playing, nothing while idle) without querying the device; consequently two
consecutive actual polls are separated by at least the minimum interval
for the state current at the second check. -/
theorem sonos_poll_interval (s : LoopState) (now : ℚ) (env : SonosEnv)
    (hsp : s.sonos_speaker_present = true) :
    (Event.sonosQueried ∈ (get_sonos_track_info s now env).2.2 ↔
      (if s.sonos_is_playing then sonos_check_interval
       else sonos_check_interval_paused) ≤ now - s.last_sonos_check) ∧
    (Event.sonosQueried ∈ (get_sonos_track_info s now env).2.2 →
      (get_sonos_track_info s now env).1.last_sonos_check = now) ∧
    (Event.sonosQueried ∉ (get_sonos_track_info s now env).2.2 →
      get_sonos_track_info s now env =
        (s, (if s.sonos_is_playing then s.last_identified else none), [])) ∧
    (∀ (now2 : ℚ) (env2 : SonosEnv),
      Event.sonosQueried ∈ (get_sonos_track_info s now env).2.2 →
      Event.sonosQueried ∈
        (get_sonos_track_info (get_sonos_track_info s now env).1 now2 env2).2.2 →
      (if (get_sonos_track_info s now env).1.sonos_is_playing
       then sonos_check_interval else sonos_check_interval_paused)
        ≤ now2 - now) := by
  by_cases hlt : now - s.last_sonos_check <
      (if s.sonos_is_playing then sonos_check_interval
       else sonos_check_interval_paused)
  · have hc := gs_cached s now env hsp hlt
    rw [hc]
    refine ⟨?_, ?_, ?_, ?_⟩
    · simp only [List.not_mem_nil, false_iff]
      exact not_le.mpr hlt
    · intro h
      exact absurd h (List.not_mem_nil _)
    · intro _
      rfl
    · intro now2 env2 h
      exact absurd h (List.not_mem_nil _)
  · have hq := gs_poll_queried s now env hsp hlt
    have hsp2 : (get_sonos_track_info s now env).1.sonos_speaker_present
        = true := by
      rw [(gs_preserves_capture s now env).2.2]
      exact hsp
    refine ⟨⟨fun _ => not_lt.mp hlt, fun _ => hq.1⟩, fun _ => hq.2, ?_, ?_⟩
    · intro h
      exact absurd hq.1 h
    · intro now2 env2 _ h2
      by_cases hlt2 : now2 - (get_sonos_track_info s now env).1.last_sonos_check <
          (if (get_sonos_track_info s now env).1.sonos_is_playing
           then sonos_check_interval else sonos_check_interval_paused)
      · rw [gs_cached _ now2 env2 hsp2 hlt2] at h2
        exact absurd h2 (List.not_mem_nil _)
      · rw [hq.2] at hlt2
        exact not_lt.mp hlt2

/-- Witness for C5: with the speaker playing and one second elapsed, the
device is queried; a repeat call a quarter second later is answered from
cache with the device untouched. -/
theorem sonos_poll_interval_witness :
    Event.sonosQueried ∈ (get_sonos_track_info
      { initState true with sonos_is_playing := true } 1
      { transport := .ok "playing", track := .ok none }).2.2 ∧
    get_sonos_track_info
        { initState true with sonos_is_playing := true,
                              last_sonos_check := (3 : ℚ) / 4 } 1
        { transport := .ok "playing", track := .ok none } =
      ({ initState true with sonos_is_playing := true,
                             last_sonos_check := (3 : ℚ) / 4 },
       none, []) := by
  have h1 := sonos_poll_interval
    { initState true with sonos_is_playing := true } 1
    { transport := .ok "playing", track := .ok none } rfl
  have h2 := sonos_poll_interval
    { initState true with sonos_is_playing := true,
                          last_sonos_check := (3 : ℚ) / 4 } 1
    { transport := .ok "playing", track := .ok none } rfl
  refine ⟨h1.1.mpr ?_, ?_⟩
  · norm_num [initState, sonos_check_interval]
  · have hnot : Event.sonosQueried ∉ (get_sonos_track_info
        { initState true with sonos_is_playing := true,
                              last_sonos_check := (3 : ℚ) / 4 } 1
        { transport := .ok "playing", track := .ok none }).2.2 := by
      intro hmem
      have := h2.1.mp hmem
      norm_num [initState, sonos_check_interval] at this
    have := h2.2.2.1 hnot
    simpa [initState] using this

lemma gs_err_eq (s : LoopState) (now : ℚ) (env : SonosEnv)
    (hsp : s.sonos_speaker_present = true)
    (hge : ¬ now - s.last_sonos_check <
      (if s.sonos_is_playing then sonos_check_interval
       else sonos_check_interval_paused))
    (herr : env.transport = Query.err) :
    get_sonos_track_info s now env =
      ({ s with last_sonos_check := now, sonos_is_playing := false },
       none, [Event.sonosQueried, Event.sonosError]) := by
  simp only [get_sonos_track_info, hsp, hge, herr]
  simp

lemma gs_track_err_eq (s : LoopState) (now : ℚ) (env : SonosEnv)
    (hsp : s.sonos_speaker_present = true)
    (hge : ¬ now - s.last_sonos_check <
      (if s.sonos_is_playing then sonos_check_interval
       else sonos_check_interval_paused))
    (htr : env.transport = Query.ok "playing")
    (htk : env.track = Query.err) :
    get_sonos_track_info s now env =
      ({ s with last_sonos_check := now, sonos_is_playing := false },
       none, [Event.sonosQueried, Event.sonosError]) := by
  simp only [get_sonos_track_info, hsp, hge, htr, htk]
  simp

/-- C6: every error raised while querying the secondary source — whether
the transport-state query or, with the transport reading playing, the
track-info query raises (both query sites share the one except block) —
is caught: the call returns no track for that tick, logs the error,
leaves the stored record untouched, marks the source not playing, and
does not disable future polls (a later call after the idle interval
queries the device again); the surrounding loop iteration completes
normally, proceeding to local capture with the stream running. -/
theorem sonos_error_tolerated (s : LoopState) (now : ℚ) (env : SonosEnv)
    (hsp : s.sonos_speaker_present = true)
    (hge : ¬ now - s.last_sonos_check <
      (if s.sonos_is_playing then sonos_check_interval
       else sonos_check_interval_paused))
    (herr : env.transport = Query.err ∨
      (env.transport = Query.ok "playing" ∧ env.track = Query.err)) :
    (get_sonos_track_info s now env).2.1 = none ∧
    Event.sonosError ∈ (get_sonos_track_info s now env).2.2 ∧
    (get_sonos_track_info s now env).1.last_identified = s.last_identified ∧
    (get_sonos_track_info s now env).1.sonos_is_playing = false ∧
    (∀ (now2 : ℚ) (env2 : SonosEnv),
      sonos_check_interval_paused ≤ now2 - now →
      Event.sonosQueried ∈
        (get_sonos_track_info (get_sonos_track_info s now env).1
          now2 env2).2.2) ∧
    (∀ (rate : ℚ),
      (tick rate s now
        ⟨env, false, ReadResult.ioError, Query.ok none⟩).1.last_identified
          = s.last_identified ∧
      (tick rate s now
        ⟨env, false, ReadResult.ioError, Query.ok none⟩).1.audio_stream_active
          = true) := by
  have heq : get_sonos_track_info s now env =
      ({ s with last_sonos_check := now, sonos_is_playing := false },
       none, [Event.sonosQueried, Event.sonosError]) := by
    rcases herr with h | ⟨h1, h2⟩
    · exact gs_err_eq s now env hsp hge h
    · exact gs_track_err_eq s now env hsp hge h1 h2
  refine ⟨by rw [heq], by rw [heq]; simp, by rw [heq], by rw [heq], ?_, ?_⟩
  · intro now2 env2 hdue
    rw [heq]
    have h := gs_poll_queried
      { s with last_sonos_check := now, sonos_is_playing := false }
      now2 env2 hsp (by simpa [sonos_check_interval_paused] using not_lt.mpr hdue)
    exact h.1
  · intro rate
    simp only [tick, heq, captureStep]
    cases hA : s.audio_stream_active <;> simp [hA]

lemma gs_idle_transition_eq (s : LoopState) (now : ℚ) (env : SonosEnv)
    (st : String)
    (hsp : s.sonos_speaker_present = true)
    (hplay : s.sonos_is_playing = true)
    (hge : ¬ now - s.last_sonos_check < sonos_check_interval)
    (htr : env.transport = Query.ok st)
    (hst : (st == "playing") = false) :
    get_sonos_track_info s now env =
      ({ s with last_sonos_check := now, sonos_is_playing := false,
                last_identified := none },
       none, [Event.sonosQueried, Event.storeCleared]) := by
  simp only [get_sonos_track_info, hsp, hplay, htr, hst, hge]
  simp [hst, not_lt.mp hge]

/-- C2 (amended): when the Playing-to-Idle transition is observed directly
— the playing flag still true from the Playing observation, and a due poll
reads a non-playing transport state — the store is cleared exactly once at
that poll (one `storeCleared` event, stored record gone), and any
candidate submitted afterwards, including one identical to the track that
was playing, is treated as new. The original claim also covers transitions
observed across an intervening query error; the code does not clear in
that case (see the counterexample): the error handler resets the playing
flag without clearing the store, so the later Idle poll sees no state
change and never clears. -/
theorem sonos_idle_transition_clears (s : LoopState) (now : ℚ)
    (env : SonosEnv) (st : String)
    (hsp : s.sonos_speaker_present = true)
    (hplay : s.sonos_is_playing = true)
    (hge : ¬ now - s.last_sonos_check < sonos_check_interval)
    (htr : env.transport = Query.ok st)
    (hst : (st == "playing") = false) :
    (get_sonos_track_info s now env).1.last_identified = none ∧
    (get_sonos_track_info s now env).2.1 = none ∧
    (get_sonos_track_info s now env).2.2.count Event.storeCleared = 1 ∧
    (∀ (cand : SongRecord) (now2 : ℚ),
      (update_if_new (get_sonos_track_info s now env).1 cand now2).2
          = true ∧
      (update_if_new (get_sonos_track_info s now env).1 cand
          now2).1.last_identified = some cand) := by
  have heq := gs_idle_transition_eq s now env st hsp hplay hge htr hst
  refine ⟨by rw [heq], by rw [heq], by rw [heq]; rfl, ?_⟩
  intro cand now2
  rw [heq]
  simp [update_if_new]

/-- Witness for C2 (amended): a playing state holding the record
"X" / "Y", polled after one second and answered "paused", clears the store
once, and resubmitting the identical record afterwards counts as new. -/
theorem sonos_idle_transition_clears_witness :
    (get_sonos_track_info
        ⟨true, true, 0, false, ⟨[], 0⟩, some ⟨"X", "Y", none⟩, none⟩ 2
        ⟨Query.ok "paused", Query.ok none⟩).1.last_identified = none ∧
    (get_sonos_track_info
        ⟨true, true, 0, false, ⟨[], 0⟩, some ⟨"X", "Y", none⟩, none⟩ 2
        ⟨Query.ok "paused", Query.ok none⟩).2.2.count Event.storeCleared
      = 1 ∧
    (update_if_new
        (get_sonos_track_info
          ⟨true, true, 0, false, ⟨[], 0⟩, some ⟨"X", "Y", none⟩, none⟩ 2
          ⟨Query.ok "paused", Query.ok none⟩).1
        ⟨"X", "Y", none⟩ 3).2 = true := by
  have h := sonos_idle_transition_clears
    ⟨true, true, 0, false, ⟨[], 0⟩, some ⟨"X", "Y", none⟩, none⟩ 2
    ⟨Query.ok "paused", Query.ok none⟩ "paused"
    rfl rfl (by norm_num [sonos_check_interval]) rfl rfl
  exact ⟨h.1, h.2.2.1, (h.2.2.2 ⟨"X", "Y", none⟩ 3).1⟩

/-- Counterexample for C2 as stated: a run in which the source is observed
Playing (the track "X" / "Y" is reported, stored, and the playing flag
set), then a poll raises an error, then a due poll observes the transport
state "stopped". The secondary source transitioned from Playing to Idle
and the transition was observed across the error — yet the store is never
cleared (no `storeCleared` event in the whole trace, and the record is
still present at the end), because the error handler already reset the
playing flag, so the Idle poll saw no state change. -/
theorem sonos_idle_transition_error_counterexample :
    (tick 16000 (initState true) 6
      ⟨⟨Query.ok "playing", Query.ok (some ⟨some "X", some "Y", none⟩)⟩,
        true, ReadResult.ioError, Query.ok none⟩).1.sonos_is_playing
      = true ∧
    (runTicks 16000 (initState true)
      [(6, ⟨⟨Query.ok "playing", Query.ok (some ⟨some "X", some "Y", none⟩)⟩,
            true, ReadResult.ioError, Query.ok none⟩),
       (8, ⟨⟨Query.err, Query.ok none⟩, true, ReadResult.ioError,
            Query.ok none⟩),
       (20, ⟨⟨Query.ok "stopped", Query.ok none⟩, true, ReadResult.ioError,
            Query.ok none⟩)]).1.sonos_is_playing = false ∧
    (runTicks 16000 (initState true)
      [(6, ⟨⟨Query.ok "playing", Query.ok (some ⟨some "X", some "Y", none⟩)⟩,
            true, ReadResult.ioError, Query.ok none⟩),
       (8, ⟨⟨Query.err, Query.ok none⟩, true, ReadResult.ioError,
            Query.ok none⟩),
       (20, ⟨⟨Query.ok "stopped", Query.ok none⟩, true, ReadResult.ioError,
            Query.ok none⟩)]).2.1.count Event.storeCleared = 0 ∧
    (runTicks 16000 (initState true)
      [(6, ⟨⟨Query.ok "playing", Query.ok (some ⟨some "X", some "Y", none⟩)⟩,
            true, ReadResult.ioError, Query.ok none⟩),
       (8, ⟨⟨Query.err, Query.ok none⟩, true, ReadResult.ioError,
            Query.ok none⟩),
       (20, ⟨⟨Query.ok "stopped", Query.ok none⟩, true, ReadResult.ioError,
            Query.ok none⟩)]).1.last_identified = some ⟨"X", "Y", none⟩ := by
  have h1 : ¬((6:ℚ) < sonos_check_interval_paused) := by
    norm_num [sonos_check_interval_paused]
  have h2 : ¬((8:ℚ) - 6 < sonos_check_interval) := by
    norm_num [sonos_check_interval]
  have h3 : ¬((20:ℚ) - 8 < sonos_check_interval_paused) := by
    norm_num [sonos_check_interval_paused]
  simp [runTicks, tick, get_sonos_track_info, captureStep, sonosBranch,
    update_if_new, initState, h1, h2, h3, List.count_cons]

lemma update_active (s : LoopState) (cand : SongRecord) (now : ℚ) :
    (update_if_new s cand now).1.audio_stream_active
      = s.audio_stream_active := by
  unfold update_if_new
  repeat' split
  all_goals simp

lemma update_buffer (s : LoopState) (cand : SongRecord) (now : ℚ) :
    (update_if_new s cand now).1.buffer = s.buffer := by
  unfold update_if_new
  repeat' split
  all_goals simp

lemma captureStep_start_fail (rate : ℚ) (s : LoopState) (now : ℚ)
    (env : TickEnv)
    (hA : s.audio_stream_active = false) (hF : env.startFails = true) :
    captureStep rate s now env = (s, [Event.startError], none) := by
  unfold captureStep
  simp [hA, hF]

lemma captureStep_active (rate : ℚ) (s : LoopState) (now : ℚ)
    (env : TickEnv) :
    (captureStep rate s now env).1.audio_stream_active
      = (s.audio_stream_active || !env.startFails) := by
  unfold captureStep
  cases hA : s.audio_stream_active <;> cases hF : env.startFails <;>
    simp only [hA, hF] <;> (repeat' split) <;> simp_all [update_active]

lemma sonosBranch_active (s : LoopState) (rec : SongRecord) (now : ℚ) :
    (sonosBranch s rec now).1.audio_stream_active = false := by
  unfold sonosBranch
  cases hA : s.audio_stream_active <;>
    simp [hA, update_active]

lemma sonosBranch_buffer (s : LoopState) (rec : SongRecord) (now : ℚ)
    (hbe : s.audio_stream_active = false →
      s.buffer = { chunks := [], duration := 0 }) :
    (sonosBranch s rec now).1.buffer = { chunks := [], duration := 0 } := by
  unfold sonosBranch
  cases hA : s.audio_stream_active with
  | false => simp [hA, update_buffer, hbe hA]
  | true => simp [hA, update_buffer]

lemma sonosBranch_buffer' (s : LoopState) (rec : SongRecord) (now : ℚ)
    (hA : s.audio_stream_active = true) :
    (sonosBranch s rec now).1.buffer = { chunks := [], duration := 0 } := by
  unfold sonosBranch
  simp [hA, update_buffer]

lemma captureStep_inactive_state (rate : ℚ) (s : LoopState) (now : ℚ)
    (env : TickEnv)
    (h : (captureStep rate s now env).1.audio_stream_active = false) :
    captureStep rate s now env = (s, [Event.startError], none) := by
  have hA := captureStep_active rate s now env
  rw [h] at hA
  have h2 := hA.symm
  rw [Bool.or_eq_false_iff] at h2
  exact captureStep_start_fail rate s now env h2.1 (by simpa using h2.2)

/-- C1 (amended): capture suppression tracks the arbiter answer, up to
stream-start failures. Whenever the arbiter query reports a playing track,
the iteration leaves the capture stream stopped and the buffer cleared;
whenever it reports none, the iteration leaves the stream running —
except that if the stream was stopped and restarting it raises, capture
stays suppressed for that one iteration (retried on the next), which is
the one divergence from the claimed if-and-only-if. The suppressed-implies
-empty-buffer invariant is preserved by every iteration. -/
theorem capture_suppressed_iff_sonos (rate : ℚ) (s : LoopState) (now : ℚ)
    (env : TickEnv)
    (hinv : s.audio_stream_active = false →
      s.buffer = { chunks := [], duration := 0 }) :
    ((get_sonos_track_info s now env.sonos).2.1 ≠ none →
      (tick rate s now env).1.audio_stream_active = false ∧
      (tick rate s now env).1.buffer = { chunks := [], duration := 0 }) ∧
    ((get_sonos_track_info s now env.sonos).2.1 = none →
      (s.audio_stream_active = true ∨ env.startFails = false) →
      (tick rate s now env).1.audio_stream_active = true) ∧
    ((tick rate s now env).1.audio_stream_active = false →
      (tick rate s now env).1.buffer = { chunks := [], duration := 0 }) := by
  have hpres := gs_preserves_capture s now env.sonos
  rcases hgs : get_sonos_track_info s now env.sonos with ⟨s1, res, evs⟩
  rw [hgs] at hpres
  have hinv1 : s1.audio_stream_active = false →
      s1.buffer = { chunks := [], duration := 0 } := by
    intro h
    rw [hpres.2.1]
    exact hinv (hpres.1 ▸ h)
  cases res with
  | some rec =>
    have htick : (tick rate s now env).1 = (sonosBranch s1 rec now).1 := by
      simp [tick, hgs]
    refine ⟨fun _ => ?_, fun hres => absurd hres (by simp), fun _ => ?_⟩
    · rw [htick]
      exact ⟨sonosBranch_active s1 rec now, sonosBranch_buffer s1 rec now hinv1⟩
    · rw [htick]
      exact sonosBranch_buffer s1 rec now hinv1
  | none =>
    have htick : (tick rate s now env).1 = (captureStep rate s1 now env).1 := by
      simp [tick, hgs]
    refine ⟨fun hres => absurd rfl hres, fun _ hok => ?_, fun hoff => ?_⟩
    · rw [htick, captureStep_active, hpres.1]
      rcases hok with h | h
      · rw [h]
        rfl
      · rw [h]
        simp
    · rw [htick] at hoff ⊢
      rw [captureStep_inactive_state rate s1 now env hoff]
      have hact : s1.audio_stream_active = false := by
        have := captureStep_active rate s1 now env
        rw [hoff] at this
        exact (Bool.or_eq_false_iff.mp this.symm).1
      exact hinv1 hact

/-- Witness for C1 (amended): while the speaker is playing with a stored
track and the capture stream running with a part-filled buffer, the
arbiter (answering from cache inside the poll interval) reports the track,
and the iteration stops the stream and clears the buffer. -/
theorem capture_suppressed_iff_sonos_witness :
    (tick 16000
      ⟨true, true, 0, true, ⟨[[Sample.finite 1]], 1 / 4⟩,
        some ⟨"X", "Y", none⟩, none⟩ (1 / 2)
      ⟨⟨Query.ok "playing", Query.ok none⟩, false, ReadResult.ioError,
        Query.ok none⟩).1.audio_stream_active = false ∧
    (tick 16000
      ⟨true, true, 0, true, ⟨[[Sample.finite 1]], 1 / 4⟩,
        some ⟨"X", "Y", none⟩, none⟩ (1 / 2)
      ⟨⟨Query.ok "playing", Query.ok none⟩, false, ReadResult.ioError,
        Query.ok none⟩).1.buffer = { chunks := [], duration := 0 } := by
  have hc := gs_cached
    ⟨true, true, 0, true, ⟨[[Sample.finite 1]], 1 / 4⟩,
      some ⟨"X", "Y", none⟩, none⟩ (1 / 2)
    ⟨Query.ok "playing", Query.ok none⟩ rfl
    (by norm_num [sonos_check_interval])
  have h := capture_suppressed_iff_sonos 16000
    ⟨true, true, 0, true, ⟨[[Sample.finite 1]], 1 / 4⟩,
      some ⟨"X", "Y", none⟩, none⟩ (1 / 2)
    ⟨⟨Query.ok "playing", Query.ok none⟩, false, ReadResult.ioError,
      Query.ok none⟩ (by intro hoff; exact absurd hoff (by simp))
  exact h.1 (by rw [hc]; simp)

/-- Counterexample for C1 as stated: an iteration on which the arbiter
reports no playing track (no speaker is present) and yet capture stays
suppressed, because restarting the stopped input stream fails. So "the
capture stream is stopped if and only if the query reported a playing
track" does not hold of every iteration: the backward direction fails on
stream-start errors. -/
theorem capture_suppressed_iff_sonos_counterexample :
    (get_sonos_track_info (initState false) 0
      ⟨Query.ok "", Query.ok none⟩).2.1 = none ∧
    (tick 16000 (initState false) 0
      ⟨⟨Query.ok "", Query.ok none⟩, true, ReadResult.ioError,
        Query.ok none⟩).1.audio_stream_active = false := by
  constructor
  · simp [get_sonos_track_info, initState]
  · simp [tick, get_sonos_track_info, captureStep, initState]

lemma captureStep_invalid (rate : ℚ) (s : LoopState) (now : ℚ)
    (env : TickEnv) (c : List Sample)
    (hread : env.read = ReadResult.ok c) (hbad : validChunk c = false)
    (hok : s.audio_stream_active = true ∨ env.startFails = false) :
    captureStep rate s now env =
      ({ s with audio_stream_active := true },
       (if s.audio_stream_active then [] else [Event.streamStarted]) ++
         [Event.readChunk, Event.invalidChunkWarning], none) := by
  have hbad' : (c.any Sample.isNaN || c.any sampleIsInf) = true := by
    unfold validChunk at hbad
    cases h : (c.any Sample.isNaN || c.any sampleIsInf)
    · rw [h] at hbad
      exact absurd hbad (by simp)
    · rfl
  cases hA : s.audio_stream_active with
  | true =>
    have hs : { s with audio_stream_active := true } = s := by
      rw [← hA]
    unfold captureStep
    rw [hs]
    simp [hA, hread, pushChunk, hbad']
  | false =>
    have hF : env.startFails = false := by
      rcases hok with h | h
      · rw [hA] at h
        exact absurd h (by simp)
      · exact h
    unfold captureStep
    simp [hA, hF, hread, pushChunk, hbad']

/-- C8: a captured chunk containing a NaN or an infinite sample is
dropped: the buffer and its accumulated duration are unchanged, a warning
is signaled, no clip is submitted, and the iteration completes with the
stream still running, ready to read the next chunk. -/
theorem invalid_chunk_dropped (rate : ℚ) (s : LoopState) (now : ℚ)
    (env : TickEnv) (c : List Sample)
    (hread : env.read = ReadResult.ok c)
    (hbad : c.any Sample.isNaN = true ∨ c.any sampleIsInf = true)
    (hsonos : (get_sonos_track_info s now env.sonos).2.1 = none)
    (hok : s.audio_stream_active = true ∨ env.startFails = false) :
    (tick rate s now env).1.buffer = s.buffer ∧
    Event.invalidChunkWarning ∈ (tick rate s now env).2.1 ∧
    (tick rate s now env).1.audio_stream_active = true ∧
    (tick rate s now env).2.2 = none := by
  have hpres := gs_preserves_capture s now env.sonos
  rcases hgs : get_sonos_track_info s now env.sonos with ⟨s1, res, evs⟩
  rw [hgs] at hpres hsonos
  cases hsonos
  have hbad2 : validChunk c = false := by
    unfold validChunk
    rcases hbad with h | h <;> simp [h]
  have hok1 : s1.audio_stream_active = true ∨ env.startFails = false := by
    rw [hpres.1]
    exact hok
  have hcs := captureStep_invalid rate s1 now env c hread hbad2 hok1
  have htick1 : (tick rate s now env).1 = (captureStep rate s1 now env).1 := by
    simp [tick, hgs]
  have htick2 : (tick rate s now env).2.1
      = evs ++ (captureStep rate s1 now env).2.1 := by
    simp [tick, hgs]
  have htick3 : (tick rate s now env).2.2
      = (captureStep rate s1 now env).2.2 := by
    simp [tick, hgs]
  rw [htick1, htick2, htick3, hcs]
  refine ⟨?_, ?_, rfl, rfl⟩
  · rw [show ({ s1 with audio_stream_active := true } : LoopState).buffer
        = s1.buffer from rfl]
    exact hpres.2.1
  · simp

/-- Witness for C8: with no speaker and the stream startable, reading the
one-sample chunk `[NaN]` leaves the buffer empty and unchanged, warns, and
keeps the stream active. -/
theorem invalid_chunk_dropped_witness :
    (tick 16000 (initState false) 0
      ⟨⟨Query.ok "", Query.ok none⟩, false, ReadResult.ok [Sample.nan],
        Query.ok none⟩).1.buffer = (initState false).buffer ∧
    Event.invalidChunkWarning ∈
      (tick 16000 (initState false) 0
        ⟨⟨Query.ok "", Query.ok none⟩, false, ReadResult.ok [Sample.nan],
          Query.ok none⟩).2.1 ∧
    (tick 16000 (initState false) 0
      ⟨⟨Query.ok "", Query.ok none⟩, false, ReadResult.ok [Sample.nan],
        Query.ok none⟩).1.audio_stream_active = true := by
  have h := invalid_chunk_dropped 16000 (initState false) 0
    ⟨⟨Query.ok "", Query.ok none⟩, false, ReadResult.ok [Sample.nan],
      Query.ok none⟩ [Sample.nan] rfl
    (Or.inl (by simp [Sample.isNaN]))
    (by simp [get_sonos_track_info, initState])
    (Or.inr rfl)
  exact ⟨h.1, h.2.1, h.2.2.1⟩

lemma run_retry_attempts_le (start : ℚ) :
    ∀ (fuel i : ℕ) (rs : List RecogResponse),
      (run_retry start fuel i rs).2.1 ≤ fuel := by
  intro fuel
  induction fuel with
  | zero =>
    intro i rs
    cases rs <;> simp [run_retry]
  | succ n ih =>
    intro i rs
    cases rs with
    | nil => simp [run_retry]
    | cons r rs =>
      cases r with
      | success rec => simp [run_retry]
      | httpStatus c =>
        simp only [run_retry]
        split
        · have hk := ih (i + 1) rs
          rcases hr : run_retry start n (i + 1) rs with ⟨res, k, ds⟩
          rw [hr] at hk
          simp only [hr] at hk ⊢
          omega
        · simp

lemma run_retry_all_fail (start : ℚ) :
    ∀ (fuel i : ℕ) (rs : List RecogResponse),
      (∀ x ∈ rs, ∃ c, x = RecogResponse.httpStatus c ∧ c ∈ retry_statuses) →
      (run_retry start fuel i rs).1 = none := by
  intro fuel
  induction fuel with
  | zero =>
    intro i rs _
    cases rs <;> simp [run_retry]
  | succ n ih =>
    intro i rs hall
    cases rs with
    | nil => simp [run_retry]
    | cons r rs =>
      obtain ⟨c, hc, _⟩ := hall r (by simp)
      subst hc
      simp only [run_retry]
      split
      · have hres := ih (i + 1) rs (fun x hx => hall x (by simp [hx]))
        rcases hr : run_retry start n (i + 1) rs with ⟨res, k, ds⟩
        rw [hr] at hres
        simp only [hr]
        exact hres
      · rfl

lemma captureStep_store_err (rate : ℚ) (s : LoopState) (now : ℚ)
    (env : TickEnv) (herr : env.recog = Query.err) :
    (captureStep rate s now env).1.last_identified = s.last_identified := by
  unfold captureStep
  cases hA : s.audio_stream_active <;> cases hF : env.startFails <;>
    simp only [hA, hF] <;> (repeat' split) <;> simp_all

/-- C7: the recognition call retries on the configured retryable statuses
(500, 502, 503, 504, 429) with exponentially doubling backoff capped at
the configured maximum, for at most the configured 12 attempts. Three
HTTP 503 responses followed by a success yield the successful record in 4
attempts, within the bound; attempts never exceed the bound; a sequence of
only retryable failures yields no identification; and a recognition
exception inside the capture loop leaves the loop's stored record exactly
as the arbiter left it — nothing is raised out of the loop iteration. -/
theorem recognition_retry_policy (start : ℚ) (rs : List RecogResponse)
    (hall : ∀ x ∈ rs,
      ∃ c, x = RecogResponse.httpStatus c ∧ c ∈ retry_statuses) :
    run_retry start retry_attempts 0
        [RecogResponse.httpStatus 503, RecogResponse.httpStatus 503,
         RecogResponse.httpStatus 503, RecogResponse.success ⟨"A", "B", none⟩]
      = (some ⟨"A", "B", none⟩, 4,
         [backoff_delay start 0, backoff_delay start 1,
          backoff_delay start 2]) ∧
    4 ≤ retry_attempts ∧
    (∀ (fuel i : ℕ) (resp : List RecogResponse),
      (run_retry start fuel i resp).2.1 ≤ fuel) ∧
    (run_retry start retry_attempts 0 rs).1 = none ∧
    (∀ i, backoff_delay start (i + 1)
        = min (2 * (start * 2 ^ i)) retry_max_timeout) ∧
    (∀ (rate : ℚ) (s : LoopState) (now : ℚ) (env : TickEnv),
      env.recog = Query.err →
      (get_sonos_track_info s now env.sonos).2.1 = none →
      (tick rate s now env).1.last_identified
        = (get_sonos_track_info s now env.sonos).1.last_identified) := by
  refine ⟨?_, by norm_num [retry_attempts], run_retry_attempts_le start,
    run_retry_all_fail start retry_attempts 0 rs hall, ?_, ?_⟩
  · simp [run_retry, retry_statuses, retry_attempts]
  · intro i
    unfold backoff_delay
    rw [pow_succ]
    congr 1
    ring
  · intro rate s now env herr hsonos
    have hpres := gs_preserves_capture s now env.sonos
    rcases hgs : get_sonos_track_info s now env.sonos with ⟨s1, res, evs⟩
    rw [hgs] at hsonos
    cases hsonos
    have htick1 : (tick rate s now env).1
        = (captureStep rate s1 now env).1 := by
      simp [tick, hgs]
    rw [htick1, captureStep_store_err rate s1 now env herr]

/-- Witness for C7: with the library default 0.1 s starting timeout,
twelve straight 503 responses yield no identification, while three 503
responses then a success yield the record. -/
theorem recognition_retry_policy_witness :
    (run_retry (1 / 10) retry_attempts 0
      (List.replicate 12 (RecogResponse.httpStatus 503))).1 = none ∧
    (run_retry (1 / 10) retry_attempts 0
      [RecogResponse.httpStatus 503, RecogResponse.httpStatus 503,
       RecogResponse.httpStatus 503,
       RecogResponse.success ⟨"A", "B", none⟩]).1
      = some ⟨"A", "B", none⟩ := by
  have h := recognition_retry_policy (1 / 10)
    (List.replicate 12 (RecogResponse.httpStatus 503))
    (by
      intro x hx
      rw [List.eq_of_mem_replicate hx]
      exact ⟨503, rfl, by norm_num [retry_statuses]⟩)
  exact ⟨h.2.2.2.1, by rw [h.1]⟩

lemma flatten_replicate_replicate {α : Type} (n m : ℕ) (x : α) :
    (List.replicate n (List.replicate m x)).flatten
      = List.replicate (n * m) x := by
  induction n with
  | zero => simp
  | succ n ih =>
    rw [List.replicate_succ, List.flatten_cons, ih, ← List.replicate_add]
    congr 1
    ring

lemma foldl_max_abs_zero :
    ∀ (n : ℕ) (acc : ℕ),
      List.foldl (fun m x => max m x.natAbs) acc
        (List.replicate n (0 : Int)) = acc := by
  intro n
  induction n with
  | zero =>
    intro acc
    rfl
  | succ n ih =>
    intro acc
    rw [List.replicate_succ, List.foldl_cons]
    simpa using ih acc

lemma maxAbs_replicate_zero (n : ℕ) :
    maxAbsSample (List.replicate n (0 : Int)) = 0 :=
  foldl_max_abs_zero n 0

lemma normalizeClip_replicate_zero (n : ℕ) :
    normalizeClip (List.replicate n (0 : Int)) = none := by
  unfold normalizeClip
  rw [maxAbs_replicate_zero]
  simp

lemma gs_no_speaker (s : LoopState) (now : ℚ) (env : SonosEnv)
    (hsp : s.sonos_speaker_present = false) :
    get_sonos_track_info s now env = (s, none, []) := by
  simp [get_sonos_track_info, hsp]

lemma tick_no_speaker (rate : ℚ) (s : LoopState) (now : ℚ) (env : TickEnv)
    (hsp : s.sonos_speaker_present = false) :
    tick rate s now env = captureStep rate s now env := by
  simp only [tick, gs_no_speaker s now env.sonos hsp]
  rcases hc : captureStep rate s now env with ⟨s2, evs2, clip⟩
  simp

lemma captureStep_push_full (rate : ℚ) (s : LoopState) (now : ℚ)
    (env : TickEnv) (c : List Sample)
    (hA : s.audio_stream_active = true)
    (hread : env.read = ReadResult.ok c)
    (hvalid : validChunk c = true)
    (hfull : isFull ⟨s.buffer.chunks ++ [c],
        s.buffer.duration + CHUNK / rate⟩ = true)
    (hrecog : env.recog = Query.ok none) :
    captureStep rate s now env =
      ({ s with buffer := { chunks := [], duration := 0 } },
       [Event.readChunk, Event.pushed, Event.submitRecognition,
        Event.recognitionComplete],
       some (((s.buffer.chunks ++ [c]).flatten).map Sample.toInt)) := by
  unfold captureStep
  simp [hA, hread, pushChunk_valid rate s.buffer c hvalid, hfull, hrecog,
    drainClip]

lemma captureStep_push_notfull (rate : ℚ) (s : LoopState) (now : ℚ)
    (env : TickEnv) (c : List Sample)
    (hA : s.audio_stream_active = true)
    (hread : env.read = ReadResult.ok c)
    (hvalid : validChunk c = true)
    (hnf : isFull ⟨s.buffer.chunks ++ [c],
        s.buffer.duration + CHUNK / rate⟩ = false) :
    captureStep rate s now env =
      ({ s with buffer := ⟨s.buffer.chunks ++ [c],
          s.buffer.duration + CHUNK / rate⟩ },
       [Event.readChunk, Event.pushed], none) := by
  unfold captureStep
  simp [hA, hread, pushChunk_valid rate s.buffer c hvalid, hnf]

/-- C10: clip normalization is partial. Pushing eleven valid 4096-sample
silence chunks at 16000 Hz (the push path of the capture loop) leaves a
2.816 s buffer; the next capture iteration reads a twelfth silence chunk,
crosses the 3.0 s target, and submits the concatenated all-zero clip —
whose peak amplitude is 0, so the normalization step divides the samples
by zero (the `none` branch of `normalizeClip`, marking the division by
zero at hello.py line 983) instead of producing a valid full-scale clip. -/
theorem silence_clip_division_by_zero :
    (pushAll 16000
        (List.replicate 11 (List.replicate 4096 (Sample.finite 0)))).chunks
      = List.replicate 11 (List.replicate 4096 (Sample.finite 0)) ∧
    (tick 16000
      ⟨false, false, 0, true,
        pushAll 16000 (List.replicate 11 (List.replicate 4096 (Sample.finite 0))),
        none, none⟩ 0
      ⟨⟨Query.ok "", Query.ok none⟩, false,
        ReadResult.ok (List.replicate 4096 (Sample.finite 0)),
        Query.ok none⟩).2.2
      = some (List.replicate 49152 (0 : Int)) ∧
    maxAbsSample (List.replicate 49152 (0 : Int)) = 0 ∧
    normalizeClip (List.replicate 49152 (0 : Int)) = none := by
  have hv : ∀ c ∈ List.replicate 11 (List.replicate 4096 (Sample.finite 0)),
      validChunk c = true := by
    intro c hc
    rw [List.eq_of_mem_replicate hc]
    exact validChunk_replicate_finite 4096 0
  have hspec := pushAll_spec 16000
    (List.replicate 11 (List.replicate 4096 (Sample.finite 0))) hv
  refine ⟨by rw [hspec], ?_, maxAbs_replicate_zero 49152,
    normalizeClip_replicate_zero 49152⟩
  rw [tick_no_speaker _ _ _ _ rfl]
  rw [captureStep_push_full 16000 _ 0 _ (List.replicate 4096 (Sample.finite 0))
    rfl rfl (validChunk_replicate_finite 4096 0) ?_ rfl]
  · simp only [hspec]
    rw [show (List.replicate 11 (List.replicate 4096 (Sample.finite 0))
        ++ [List.replicate 4096 (Sample.finite 0)])
      = List.replicate 12 (List.replicate 4096 (Sample.finite 0)) from by
        rw [← List.replicate_succ']]
    rw [flatten_replicate_replicate, List.map_replicate]
    rfl
  · simp only [hspec]
    unfold isFull
    norm_num [target_duration, CHUNK]

lemma nrw_append_submit_free (xs ys : List Event)
    (h : Event.submitRecognition ∉ xs) :
    noReadWhileInFlight false (xs ++ ys) = noReadWhileInFlight false ys := by
  induction xs with
  | nil => rfl
  | cons a xs ih =>
    have ha : a ≠ Event.submitRecognition := fun he => h (he ▸ by simp)
    have hxs : Event.submitRecognition ∉ xs :=
      fun hm => h (List.mem_cons_of_mem a hm)
    cases a <;> simp_all [noReadWhileInFlight]

lemma gs_events_submit_free (s : LoopState) (now : ℚ) (env : SonosEnv) :
    Event.submitRecognition ∉ (get_sonos_track_info s now env).2.2 := by
  simp only [get_sonos_track_info]
  repeat' split
  all_goals simp

lemma sonosBranch_events_submit_free (s : LoopState) (rec : SongRecord)
    (now : ℚ) :
    Event.submitRecognition ∉ (sonosBranch s rec now).2 := by
  unfold sonosBranch
  cases hA : s.audio_stream_active <;> simp only [hA] <;>
    (repeat' split) <;> simp_all

lemma captureStep_nrw (rate : ℚ) (s : LoopState) (now : ℚ) (env : TickEnv)
    (rest : List Event) :
    noReadWhileInFlight false ((captureStep rate s now env).2.1 ++ rest)
      = noReadWhileInFlight false rest := by
  unfold captureStep
  cases hA : s.audio_stream_active <;> cases hF : env.startFails <;>
    simp only [hA, hF] <;> (repeat' split) <;>
    simp_all [noReadWhileInFlight]

lemma tick_nrw (rate : ℚ) (s : LoopState) (now : ℚ) (env : TickEnv)
    (rest : List Event) :
    noReadWhileInFlight false ((tick rate s now env).2.1 ++ rest)
      = noReadWhileInFlight false rest := by
  have hfree := gs_events_submit_free s now env.sonos
  rcases hgs : get_sonos_track_info s now env.sonos with ⟨s1, res, evs⟩
  rw [hgs] at hfree
  cases res with
  | some rec =>
    have ht : (tick rate s now env).2.1
        = evs ++ (sonosBranch s1 rec now).2 := by
      simp [tick, hgs]
    rw [ht, List.append_assoc, nrw_append_submit_free evs _ hfree,
      nrw_append_submit_free _ _ (sonosBranch_events_submit_free s1 rec now)]
  | none =>
    have ht : (tick rate s now env).2.1
        = evs ++ (captureStep rate s1 now env).2.1 := by
      simp [tick, hgs]
    rw [ht, List.append_assoc, nrw_append_submit_free evs _ hfree,
      captureStep_nrw]

/-- C9 (amended): recognition blocks the capture loop. The recognition
call is awaited inline in the loop body, so in every run, whenever a clip
is submitted the completion of that call is observed before anything else
of the loop happens: no chunk read ever occurs while a recognition call is
in flight. The claim that the next chunk read can proceed while a
submission awaits its result is false of every execution. -/
theorem recognition_blocks_capture (rate : ℚ) (s : LoopState)
    (envs : List (ℚ × TickEnv)) :
    noReadWhileInFlight false (runTicks rate s envs).2.1 = true := by
  induction envs generalizing s with
  | nil => rfl
  | cons p rest ih =>
    rcases p with ⟨now, env⟩
    have hstep := tick_nrw rate s now env (runTicks rate
      (tick rate s now env).1 rest).2.1
    rcases ht : tick rate s now env with ⟨s1, evs, clip⟩
    rcases hr : runTicks rate s1 rest with ⟨sf, evsRest, clips⟩
    rw [ht, hr] at hstep
    have hrun : (runTicks rate s ((now, env) :: rest)).2.1
        = evs ++ evsRest := by
      simp [runTicks, ht, hr]
    rw [hrun, hstep]
    have := ih s1
    rw [hr] at this
    exact this

/-- Counterexample for C9 as stated: a concrete two-iteration execution in
which a clip is submitted for recognition (there is a `submitRecognition`
event) and chunk reads do happen (there are `readChunk` events), yet no
read occurs between the submission and its completion — the completion is
observed within the same iteration, before the next read. The next chunk
read therefore cannot proceed while the recognition call is awaiting its
result. -/
theorem recognition_blocks_capture_counterexample :
    Event.submitRecognition ∈
      (runTicks 16000
        ⟨false, false, 0, true,
          pushAll 16000 (List.replicate 11 (List.replicate 4096 (Sample.finite 0))),
          none, none⟩
        [(0, ⟨⟨Query.ok "", Query.ok none⟩, false,
            ReadResult.ok (List.replicate 4096 (Sample.finite 0)),
            Query.ok none⟩),
         (1, ⟨⟨Query.ok "", Query.ok none⟩, false,
            ReadResult.ok (List.replicate 4096 (Sample.finite 0)),
            Query.ok none⟩)]).2.1 ∧
    Event.readChunk ∈
      (runTicks 16000
        ⟨false, false, 0, true,
          pushAll 16000 (List.replicate 11 (List.replicate 4096 (Sample.finite 0))),
          none, none⟩
        [(0, ⟨⟨Query.ok "", Query.ok none⟩, false,
            ReadResult.ok (List.replicate 4096 (Sample.finite 0)),
            Query.ok none⟩),
         (1, ⟨⟨Query.ok "", Query.ok none⟩, false,
            ReadResult.ok (List.replicate 4096 (Sample.finite 0)),
            Query.ok none⟩)]).2.1 ∧
    noReadWhileInFlight false
      (runTicks 16000
        ⟨false, false, 0, true,
          pushAll 16000 (List.replicate 11 (List.replicate 4096 (Sample.finite 0))),
          none, none⟩
        [(0, ⟨⟨Query.ok "", Query.ok none⟩, false,
            ReadResult.ok (List.replicate 4096 (Sample.finite 0)),
            Query.ok none⟩),
         (1, ⟨⟨Query.ok "", Query.ok none⟩, false,
            ReadResult.ok (List.replicate 4096 (Sample.finite 0)),
            Query.ok none⟩)]).2.1 = true := by
  have hv : ∀ c ∈ List.replicate 11 (List.replicate 4096 (Sample.finite 0)),
      validChunk c = true := by
    intro c hc
    rw [List.eq_of_mem_replicate hc]
    exact validChunk_replicate_finite 4096 0
  have hspec := pushAll_spec 16000
    (List.replicate 11 (List.replicate 4096 (Sample.finite 0))) hv
  have ht1 : tick 16000
      ⟨false, false, 0, true,
        pushAll 16000 (List.replicate 11 (List.replicate 4096 (Sample.finite 0))),
        none, none⟩ 0
      ⟨⟨Query.ok "", Query.ok none⟩, false,
        ReadResult.ok (List.replicate 4096 (Sample.finite 0)),
        Query.ok none⟩ =
      (⟨false, false, 0, true, ⟨[], 0⟩, none, none⟩,
       [Event.readChunk, Event.pushed, Event.submitRecognition,
        Event.recognitionComplete],
       some ((((List.replicate 11 (List.replicate 4096 (Sample.finite 0))).flatten)
          ++ List.replicate 4096 (Sample.finite 0)).map Sample.toInt)) := by
    rw [tick_no_speaker _ _ _ _ rfl]
    rw [captureStep_push_full 16000 _ 0 _
      (List.replicate 4096 (Sample.finite 0)) rfl rfl
      (validChunk_replicate_finite 4096 0) ?_ rfl]
    · simp only [hspec]
      rw [List.flatten_append]
      simp only [List.flatten_cons, List.flatten_nil, List.append_nil]
    · simp only [hspec]
      unfold isFull
      norm_num [target_duration, CHUNK]
  have ht2 : tick 16000
      (⟨false, false, 0, true, ⟨[], 0⟩, none, none⟩ : LoopState) 1
      ⟨⟨Query.ok "", Query.ok none⟩, false,
        ReadResult.ok (List.replicate 4096 (Sample.finite 0)),
        Query.ok none⟩ =
      (⟨false, false, 0, true,
        ⟨[List.replicate 4096 (Sample.finite 0)], 0 + CHUNK / 16000⟩,
        none, none⟩,
       [Event.readChunk, Event.pushed], none) := by
    rw [tick_no_speaker _ _ _ _ rfl]
    rw [captureStep_push_notfull 16000 _ 1 _
      (List.replicate 4096 (Sample.finite 0)) rfl rfl
      (validChunk_replicate_finite 4096 0) ?_]
    · dsimp only
      simp only [List.nil_append]
    · unfold isFull
      norm_num [target_duration, CHUNK]
  rw [show (runTicks 16000
      ⟨false, false, 0, true,
        pushAll 16000 (List.replicate 11 (List.replicate 4096 (Sample.finite 0))),
        none, none⟩
      [(0, ⟨⟨Query.ok "", Query.ok none⟩, false,
          ReadResult.ok (List.replicate 4096 (Sample.finite 0)),
          Query.ok none⟩),
       (1, ⟨⟨Query.ok "", Query.ok none⟩, false,
          ReadResult.ok (List.replicate 4096 (Sample.finite 0)),
          Query.ok none⟩)]).2.1
    = [Event.readChunk, Event.pushed, Event.submitRecognition,
       Event.recognitionComplete, Event.readChunk, Event.pushed] from by
      simp only [runTicks, ht1, ht2]
      simp only [List.append_nil, List.cons_append, List.nil_append]]
  refine ⟨by simp, by simp, ?_⟩
  simp [noReadWhileInFlight]

/-- Witness for C6: with the speaker known and idle, a due poll whose
transport query raises is absorbed — no track, store untouched — and a
poll five seconds later still queries the device; likewise a due poll
whose transport reads playing but whose track query raises leaves the
store untouched, yields no track, and resets the playing flag. -/
theorem sonos_error_tolerated_witness :
    (get_sonos_track_info (initState true) 6
      ⟨Query.err, Query.ok none⟩).2.1 = none ∧
    (get_sonos_track_info (initState true) 6
      ⟨Query.err, Query.ok none⟩).1.last_identified
      = (initState true).last_identified ∧
    Event.sonosQueried ∈
      (get_sonos_track_info
        (get_sonos_track_info (initState true) 6
          ⟨Query.err, Query.ok none⟩).1 11
        ⟨Query.err, Query.ok none⟩).2.2 ∧
    (get_sonos_track_info (initState true) 6
      ⟨Query.ok "playing", Query.err⟩).2.1 = none ∧
    (get_sonos_track_info (initState true) 6
      ⟨Query.ok "playing", Query.err⟩).1.last_identified
      = (initState true).last_identified ∧
    (get_sonos_track_info (initState true) 6
      ⟨Query.ok "playing", Query.err⟩).1.sonos_is_playing = false := by
  have h := sonos_error_tolerated (initState true) 6
    ⟨Query.err, Query.ok none⟩ rfl
    (by norm_num [initState, sonos_check_interval_paused])
    (Or.inl rfl)
  have h2 := sonos_error_tolerated (initState true) 6
    ⟨Query.ok "playing", Query.err⟩ rfl
    (by norm_num [initState, sonos_check_interval_paused])
    (Or.inr ⟨rfl, rfl⟩)
  exact ⟨h.1, h.2.2.1, h.2.2.2.2.1 11 ⟨Query.err, Query.ok none⟩
    (by norm_num [sonos_check_interval_paused]), h2.1, h2.2.2.1,
    h2.2.2.2.1⟩

end AL
